import Mathlib

/-!
Verification of the Dune analytics Telegram bot (dune_bot.py).

Shallow embedding of the query-execution poller, the conversation handlers,
the result formatter and the CSV export of `src/dune_bot.py`, together with
proofs of the specification's testable properties.

Conventions of the embedding:
* Python strings are Lean `String`s; `len` is `String.length` (code points),
  mirroring Python's `len` on `str`.
* Python's `str.strip()` is modelled by `pyStrip` (ASCII whitespace; the
  extra Unicode space code points Python also strips are not exercised by
  any theorem below).
* JSON result rows are association lists from column name to the rendered
  string form of the value (`Row`); Python `dict` preserves insertion
  order, as the association list does.
* Remote calls are parameters: a polling run receives the sequence of
  states the status endpoint would report (`statuses : Nat → String`), a
  handler receives the token-lookup result and the outcome of `run_query`.
* Exceptions are `Except String` values; an uncaught `KeyError` escaping a
  handler is `Option.none`.
-/

/-- ASCII whitespace as stripped by Python `str.strip()`. -/
def pyIsSpace (c : Char) : Bool :=
  c = ' ' || c = '\t' || c = '\n' || c = '\r' || c = '\x0b' || c = '\x0c'

/-- Model of Python `str.strip()`: drop leading and trailing whitespace. -/
def pyStrip (s : String) : String :=
  String.mk (((s.data.dropWhile pyIsSpace).reverse.dropWhile pyIsSpace).reverse)

/-- UTF-8 size in bytes of one character (the spec's byte measure). -/
def charUtf8Size (c : Char) : Nat :=
  if c.val < 0x80 then 1
  else if c.val < 0x800 then 2
  else if c.val < 0x10000 then 3
  else 4

/-- UTF-8 byte length of a string (the spec's "byte budget" measure). -/
def utf8Len (s : String) : Nat :=
  (s.data.map charUtf8Size).sum

/-- One result row: column name to rendered value, in insertion order. -/
abbrev Row := List (String × String)

/-- Column names of a row, in order (Python `dict.keys()`). -/
def rowKeys (r : Row) : List String := r.map Prod.fst

/-- Python `row.get(k)` rendered into an f-string: a missing key shows as
the string form of `None`. -/
def pyGet (r : Row) (k : String) : String :=
  (List.lookup k r).getD "None"

/-- Python `row[k]`: raises `KeyError` when the key is missing. -/
def pyGetItem (r : Row) (k : String) : Except String String :=
  match List.lookup k r with
  | some v => .ok v
  | none => .error ("KeyError: " ++ k)

/-! ## Datetime validation (line 34 of dune_bot.py)

`DATETIME_PATTERN = re.compile(r"^\d{4}-\d{2}-\d{2} \d{2}:\d{2}:\d{2}$")`.
Python `\d` matches Unicode decimal digits; the theorems below only
exercise ASCII inputs, so it is modelled by `Char.isDigit`.  Python's `$`
(without MULTILINE) also matches just before one trailing newline, which
`DATETIME_PATTERN_match` reproduces. -/

/-- Character-list shape of `\d{4}-\d{2}-\d{2} \d{2}:\d{2}:\d{2}` exactly. -/
def datetimeShape : List Char → Bool
  | [y1, y2, y3, y4, h1, m1, m2, h2, d1, d2, sp, t1, t2, c1, n1, n2, c2, s1, s2] =>
    y1.isDigit && y2.isDigit && y3.isDigit && y4.isDigit && h1 = '-' &&
    m1.isDigit && m2.isDigit && h2 = '-' && d1.isDigit && d2.isDigit &&
    sp = ' ' && t1.isDigit && t2.isDigit && c1 = ':' && n1.isDigit &&
    n2.isDigit && c2 = ':' && s1.isDigit && s2.isDigit
  | _ => false

/-- Model of `DATETIME_PATTERN.match(s)` being truthy: the anchored pattern
matches `s` itself, or `s` with exactly one trailing newline removed
(Python's `$` semantics). -/
def DATETIME_PATTERN_match (s : String) : Bool :=
  datetimeShape s.data ||
    (match s.data.reverse with
     | '\n' :: rest => datetimeShape rest.reverse
     | _ => false)

/-! ## Execution poller (run_query, lines 63-81)

The source:
```
waited = 0
while waited < max_wait_minutes * 60:
    status = get_status(execution_id)
    state = status["state"]
    if state == "QUERY_STATE_COMPLETED":
        return get_results(execution_id)
    elif state in ["QUERY_STATE_FAILED", "QUERY_STATE_CANCELLED"]:
        raise Exception(f"Query failed: ...")
    time.sleep(poll_interval)
    waited += poll_interval
raise TimeoutError("Query did not finish within allowed time")
```
The status endpoint is modelled by `statuses : Nat → String`, giving the
state string returned by the i-th status check.  The outcome records how
many status checks and how many sleeps were performed.  The loop
terminates only because `poll_interval` is positive, so the embedding
carries that fact as an argument. -/

/-- Outcome of one polling run, with the number of status checks and of
sleeps performed. `success` stands for returning `get_results(...)`. -/
inductive RunOutcome where
  | success (checks sleeps : Nat)
  | queryFailed (state : String) (checks sleeps : Nat)
  | timedOut (checks sleeps : Nat)
  deriving DecidableEq, Repr

/-- Status checks performed in a run. -/
def RunOutcome.checks : RunOutcome → Nat
  | .success c _ => c
  | .queryFailed _ c _ => c
  | .timedOut c _ => c

/-- Sleeps performed in a run. -/
def RunOutcome.sleeps : RunOutcome → Nat
  | .success _ s => s
  | .queryFailed _ _ s => s
  | .timedOut _ s => s

/-- A state string the loop stops at (spec: COMPLETED, FAILED, CANCELLED
are the terminal states). -/
def isTerminalState (st : String) : Bool :=
  st = "QUERY_STATE_COMPLETED" || st = "QUERY_STATE_FAILED" ||
    st = "QUERY_STATE_CANCELLED"

/-- The polling loop of `run_query`. `waited`, `checks`, `sleeps` are the
accumulated seconds waited, status checks and sleeps so far. -/
def pollLoop (statuses : Nat → String) (maxWait pollInterval : Nat)
    (hp : 0 < pollInterval) (waited checks sleeps : Nat) : RunOutcome :=
  if h : waited < maxWait then
    let st := statuses checks
    if st = "QUERY_STATE_COMPLETED" then
      .success (checks + 1) sleeps
    else if st = "QUERY_STATE_FAILED" ∨ st = "QUERY_STATE_CANCELLED" then
      .queryFailed st (checks + 1) sleeps
    else
      pollLoop statuses maxWait pollInterval hp (waited + pollInterval)
        (checks + 1) (sleeps + 1)
  else
    .timedOut checks sleeps
termination_by maxWait - waited
decreasing_by omega

/-- `run_query` (source defaults: `max_wait_minutes=30`, `poll_interval=5`).
The wall-clock budget is `max_wait_minutes * 60` seconds, exactly as in the
loop condition of the source. -/
def run_query (statuses : Nat → String) (max_wait_minutes poll_interval : Nat)
    (hp : 0 < poll_interval) : RunOutcome :=
  pollLoop statuses (max_wait_minutes * 60) poll_interval hp 0 0 0

/-- A status endpoint that forever reports PENDING (used by witnesses). -/
def pendingStatuses : Nat → String := fun _ => "QUERY_STATE_PENDING"

/-- A status endpoint that reports FAILED at once (used by witnesses). -/
def failedStatuses : Nat → String := fun _ => "QUERY_STATE_FAILED"

/-! ## CSV tabular export (fetch_trades, lines 252-262)

The source builds the file with Python's `csv.DictWriter` on a `StringIO`:
fieldnames are the first row's keys, `writeheader()` writes them as a
record, `writerows(rows)` writes one record per row.  The excel dialect
with QUOTE_MINIMAL is modelled character-exactly: fields containing the
delimiter, the quote or a line-terminator character are quoted with `"`
doubled inside; records end with CRLF; a record whose single field is the
empty string is written as a quoted empty field.  `DictWriter` looks every
fieldname up in the row (absent keys yield the restval `None`, written as
the empty string) and raises `ValueError` when a row has a key outside the
fieldnames.  The parser used for the round-trip property is the standard
reader of this same dialect (the repository itself never re-parses). -/

/-- A CSV field as a character list. -/
abbrev CField := List Char

/-- Characters that end an unquoted field. -/
def csvStopper (c : Char) : Bool := c = ',' || c = '\r' || c = '\n'

/-- QUOTE_MINIMAL: quote when the field holds the delimiter, the quote
char, or a line-terminator character. -/
def needsQuote (f : CField) : Bool :=
  f.any (fun c => csvStopper c || c = '"')

/-- Double every quote character (the escaping inside a quoted field). -/
def escQuotes : CField → CField
  | [] => []
  | c :: cs => if c = '"' then '"' :: '"' :: escQuotes cs else c :: escQuotes cs

/-- Render one field, quoting only when needed. -/
def writeField (f : CField) : CField :=
  if needsQuote f then '"' :: (escQuotes f ++ ['"']) else f

/-- Fields of a record joined by the delimiter. -/
def writeRecordBody : List CField → CField
  | [] => []
  | [f] => writeField f
  | f :: fs => writeField f ++ ',' :: writeRecordBody fs

/-- One CRLF-terminated record; a lone empty field is quoted so the record
is distinguishable from a blank line (csv module behaviour). -/
def writeRecord (fs : List CField) : CField :=
  if fs = [[]] then ['"', '"', '\r', '\n']
  else writeRecordBody fs ++ ['\r', '\n']

/-- A whole table, one record per row. -/
def csvWriteTable (t : List (List CField)) : CField :=
  (t.map writeRecord).flatten

/-- Read a quoted field after its opening quote: a doubled quote is a
literal quote, a lone quote closes the field. -/
def parseQuoted : CField → CField × CField
  | [] => ([], [])
  | c :: cs =>
    if c = '"' then
      match cs with
      | [] => ([], [])
      | c2 :: cs2 =>
        if c2 = '"' then
          let p := parseQuoted cs2
          ('"' :: p.1, p.2)
        else ([], cs)
    else
      let p := parseQuoted cs
      (c :: p.1, p.2)

/-- Read an unquoted field: everything up to a stopper character. -/
def parseUnquoted : CField → CField × CField
  | [] => ([], [])
  | c :: cs =>
    if csvStopper c then ([], c :: cs)
    else
      let p := parseUnquoted cs
      (c :: p.1, p.2)

/-- Read one field, quoted or not. -/
def parseField : CField → CField × CField
  | [] => ([], [])
  | c :: cs => if c = '"' then parseQuoted cs else parseUnquoted (c :: cs)

/-- Read the fields of one record; the fuel bounds the number of fields
(any value of at least the field count gives the same result). -/
def parseRecFieldsGo : Nat → CField → List CField × CField
  | 0, cs => ([], cs)
  | fuel + 1, cs =>
    let p := parseField cs
    match p.2 with
    | ',' :: rest =>
      let q := parseRecFieldsGo fuel rest
      (p.1 :: q.1, q.2)
    | '\r' :: '\n' :: rest => ([p.1], rest)
    | _ => ([p.1], p.2)

/-- Read the fields of one record (enough fuel for any input). -/
def parseRecordFields (cs : CField) : List CField × CField :=
  parseRecFieldsGo (cs.length + 1) cs

/-- Read one record: a blank CRLF line is the empty record (csv reader
behaviour), anything else is a non-empty field list. -/
def parseRecord : CField → List CField × CField
  | [] => parseRecordFields []
  | [c] => parseRecordFields [c]
  | c1 :: c2 :: rest =>
    if c1 = '\r' ∧ c2 = '\n' then ([], rest)
    else parseRecordFields (c1 :: c2 :: rest)

/-- Read a table record by record; the fuel bounds the record count. -/
def parseTableGo : Nat → CField → List (List CField)
  | _, [] => []
  | 0, _ :: _ => []
  | fuel + 1, c :: cs =>
    let p := parseRecord (c :: cs)
    p.1 :: parseTableGo fuel p.2

/-- Read a whole table (enough fuel for any input written by the writer). -/
def csvParseTable (cs : CField) : List (List CField) :=
  parseTableGo cs.length cs

/-- String-level table writer (the content of the exported file). -/
def csvWriteTableStr (t : List (List String)) : String :=
  String.mk (csvWriteTable (t.map (fun r => r.map String.data)))

/-- String-level table reader. -/
def csvParseTableStr (s : String) : List (List String) :=
  (csvParseTable s.data).map (fun r => r.map String.mk)

/-! ### DictWriter on result rows

`csv.DictWriter(output, fieldnames=rows[0].keys())` followed by
`writeheader()` and `writerows(rows)`: each row is projected onto the
fieldnames (`rowdict.get(key, restval)` with `restval=None`, which the csv
writer renders as the empty string); a row holding any key outside the
fieldnames raises `ValueError` before the document is sent. -/

/-- Values of one row under the header, or the `ValueError` of `writerow`
(the real message also names the offending keys after a colon; that suffix
is abstracted away here, no theorem depends on it). -/
def dictWriterRow (fieldnames : List String) (r : Row) :
    Except String (List String) :=
  if ∀ kv ∈ r, kv.1 ∈ fieldnames then
    .ok (fieldnames.map (fun k => (List.lookup k r).getD ""))
  else .error "dict contains fields not in fieldnames"

/-- `writerows`: first `ValueError` aborts the remaining rows. -/
def dictWriterRows (fieldnames : List String) :
    List Row → Except String (List (List String))
  | [] => .ok []
  | r :: rs =>
    match dictWriterRow fieldnames r with
    | .error e => .error e
    | .ok v =>
      match dictWriterRows fieldnames rs with
      | .error e => .error e
      | .ok vs => .ok (v :: vs)

/-- The whole CSV block of fetch_trades (lines 253-257): fieldnames from
the first row, header record, then one record per row; the result is the
exported file content. -/
def csvExport (rows : List Row) : Except String String :=
  match rows with
  | [] => .error "IndexError: list index out of range"
  | r0 :: _ =>
    match dictWriterRows (rowKeys r0) rows with
    | .ok recs => .ok (csvWriteTableStr (rowKeys r0 :: recs))
    | .error e => .error e

/-! ## Conversation handlers (lines 136-267)

Each handler is a pure function of the inbound message text, the per-user
`context.user_data`, and the results of the external collaborators: the
token-name lookup (which never fails, falling back to "Unknown Token") and
the outcome of `run_query` (`.ok rows` for a fetched row list, `.error e`
for any exception raised inside the `try` block).  The output records the
conversation return value, the updated user data, whether `run_query` (and
with it the Dune API) was invoked, the sent messages, the edits applied to
the status message, and the attached document (filename and content). -/

/-- The conversation states of the handler table (line 31). -/
inductive ConvState where
  | ASK_CA_TOP
  | ASK_CA_TRADES
  | ASK_START
  | ASK_END
  deriving DecidableEq, Repr

/-- A handler's return value: a next state or ConversationHandler.END. -/
inductive ConvRet where
  | toState (s : ConvState)
  | ended
  deriving DecidableEq, Repr

/-- The per-user `context.user_data` entries this bot uses. -/
structure UserData where
  contract_address : Option String := none
  start_time : Option String := none
  end_time : Option String := none
  deriving DecidableEq, Repr, Inhabited

/-- Observable result of one handler invocation. -/
structure StepOut where
  ret : ConvRet
  data : UserData
  queryCalled : Bool
  replies : List String
  edits : List String
  document : Option (String × String)
  deriving DecidableEq, Repr

/-- The top-traders message body (lines 161-168).  Numeric `:.2f`
formatting is abstracted: values are already rendered strings; a missing
key (`row['...']`, a KeyError) aborts the build. -/
def renderTopMsg (tokenName : String) (rows : List Row) :
    Except String String :=
  rows.foldlM
    (fun m row => do
      let tid ← pyGetItem row "trader_id"
      let profit ← pyGetItem row "profit_usd"
      let roi ← pyGetItem row "roi"
      pure (m ++ "👤 `" ++ tid ++ "`\n💰 Profit: " ++ profit ++
        " USD\n📈 ROI: " ++ roi ++ "\n---\n"))
    ("📊 *Top Traders for " ++ tokenName ++ "*\n\n")

/-- The trades message body (lines 239-245): header plus at most the first
20 rows, each rendered with `row.get` (missing keys show as `None`). -/
def renderTradesMsg (rows : List Row) : String :=
  (rows.take 20).foldl
    (fun m row => m ++ "⏰ " ++ pyGet row "trade_date" ++ "\n👤 " ++
      pyGet row "trader_id" ++ "\n💠 " ++ pyGet row "token_bought_symbol" ++
      " — $" ++ pyGet row "amount_usd" ++ "\n\n")
    "📊 Query Results:\n\n"

/-- handle_ca_top (lines 137-175): validate the address, confirm the
token, run the top-traders query, render inline (there is never a file
export in this flow). -/
def handle_ca_top (text tokenName : String)
    (outcome : Except String (List Row)) (ud : UserData) : StepOut :=
  let ca := pyStrip text
  if ¬ (32 ≤ ca.length ∧ ca.length ≤ 44) then
    { ret := .ended, data := ud, queryCalled := false,
      replies := ["⚠️ Invalid Solana contract address format."],
      edits := [], document := none }
  else
    let confirmMsg := "✅ Token confirmed: *" ++ tokenName ++
      "*\n\n⏳ Running query..."
    match outcome with
    | .error e =>
      { ret := .ended, data := ud, queryCalled := true,
        replies := [confirmMsg], edits := ["❌ Error: " ++ e],
        document := none }
    | .ok rows =>
      if rows = [] then
        { ret := .ended, data := ud, queryCalled := true,
          replies := [confirmMsg], edits := ["⚠️ No results found."],
          document := none }
      else
        match renderTopMsg tokenName rows with
        | .ok msg =>
          { ret := .ended, data := ud, queryCalled := true,
            replies := [confirmMsg], edits := [msg], document := none }
        | .error e =>
          { ret := .ended, data := ud, queryCalled := true,
            replies := [confirmMsg], edits := ["❌ Error: " ++ e],
            document := none }

/-- ask_start (lines 179-192): validate the address, store it, prompt for
the start time.  No Dune query is made in this step. -/
def ask_start (text tokenName : String) (ud : UserData) : StepOut :=
  let ca := pyStrip text
  if ¬ (32 ≤ ca.length ∧ ca.length ≤ 44) then
    { ret := .ended, data := ud, queryCalled := false,
      replies := ["⚠️ Invalid Solana contract address format."],
      edits := [], document := none }
  else
    { ret := .toState .ASK_START,
      data := { ud with contract_address := some ca },
      queryCalled := false,
      replies := ["✅ Token confirmed: *" ++ tokenName ++
        "*\n\nNow enter *start date* (YYYY-MM-DD HH:MM:SS):"],
      edits := [], document := none }

/-- ask_end (lines 195-203): validate the start time; on failure re-prompt
and stay in ASK_START, otherwise store it and move to ASK_END. -/
def ask_end (text : String) (ud : UserData) : StepOut :=
  let start_time := pyStrip text
  if ¬ DATETIME_PATTERN_match start_time = true then
    { ret := .toState .ASK_START, data := ud, queryCalled := false,
      replies := ["⚠️ Invalid format! Try again: YYYY-MM-DD HH:MM:SS"],
      edits := [], document := none }
  else
    { ret := .toState .ASK_END,
      data := { ud with start_time := some start_time },
      queryCalled := false,
      replies := ["✅ Got start time.\nNow enter *end date* (YYYY-MM-DD HH:MM:SS):"],
      edits := [], document := none }

/-- fetch_trades (lines 206-267): validate the end time (re-prompt on
failure), store it, read the stored address and start time (an absent
entry is an uncaught KeyError, modelled as `none`), run the trades query,
render at most 20 rows inline or the "too large" notice when the message
exceeds 4096 characters, and always attach the full CSV; a CSV
`ValueError` is caught and edits the status message instead. -/
def fetch_trades (text : String) (ud : UserData)
    (outcome : Except String (List Row)) : Option StepOut :=
  let end_time := pyStrip text
  if ¬ DATETIME_PATTERN_match end_time = true then
    some
      { ret := .toState .ASK_END, data := ud, queryCalled := false,
        replies := ["⚠️ Invalid format! Try again: YYYY-MM-DD HH:MM:SS"],
        edits := [], document := none }
  else
    let ud2 := { ud with end_time := some end_time }
    match ud.contract_address, ud.start_time with
    | some ca, some start_time =>
      let statusMsg := "📡 Running query...\n\nCA: `" ++ ca ++ "`\nFrom: " ++
        start_time ++ "\nTo: " ++ end_time
      some (match outcome with
        | .error e =>
          { ret := .ended, data := ud2, queryCalled := true,
            replies := [statusMsg], edits := ["❌ Error: " ++ e],
            document := none }
        | .ok rows =>
          if rows = [] then
            { ret := .ended, data := ud2, queryCalled := true,
              replies := [statusMsg], edits := ["⚠️ No results found."],
              document := none }
          else
            let message := renderTradesMsg rows
            let firstEdit := if message.length ≤ 4096 then message
              else "📂 Results too large, sending CSV..."
            match csvExport rows with
            | .ok content =>
              { ret := .ended, data := ud2, queryCalled := true,
                replies := [statusMsg], edits := [firstEdit],
                document := some ("trades_" ++ ca ++ ".csv", content) }
            | .error e =>
              { ret := .ended, data := ud2, queryCalled := true,
                replies := [statusMsg], edits := [firstEdit, "❌ Error: " ++ e],
                document := none })
    | _, _ => none

/-- Row set for the C6 counterexample: a single row whose trade_date value
is 1400 four-byte characters, so the rendered message stays under 4096
characters while far exceeding 4096 UTF-8 bytes. -/
def c6Rows : List Row :=
  [[("trade_date", String.mk (List.replicate 1400 '😀'))]]

/-- Row set for the C6 witness: a single row with a 5000-character ASCII
value, whose rendered message exceeds 4096 characters. -/
def c6BigRows : List Row :=
  [[("trade_date", String.mk (List.replicate 5000 'a'))]]

/-! ## Theorems -/

/-- When no status check ever reports a terminal state, the loop times out
after exactly `ceil((maxWait - waited) / pollInterval)` further checks,
each followed by one sleep. -/
theorem pollLoop_nonTerminal (statuses : Nat → String) (maxWait p : Nat)
    (hp : 0 < p) (hs : ∀ i, isTerminalState (statuses i) = false) :
    ∀ m w c sl, maxWait - w = m →
      pollLoop statuses maxWait p hp w c sl =
        .timedOut (c + (m + p - 1) / p) (sl + (m + p - 1) / p) := by
  intro m
  induction m using Nat.strong_induction_on with
  | _ m ih =>
    intro w c sl hm
    rw [pollLoop]
    by_cases h : w < maxWait
    · have hm1 : 1 ≤ m := by omega
      have hst := hs c
      simp only [isTerminalState, Bool.or_eq_false_iff, decide_eq_false_iff_not] at hst
      rw [dif_pos h, if_neg hst.1.1, if_neg (by
        intro hmem
        rcases hmem with h1 | h1
        · exact hst.1.2 h1
        · exact hst.2 h1)]
      rw [ih (m - p) (by omega) (w + p) (c + 1) (sl + 1) (by omega)]
      have hdiv : (m + p - 1) / p = (m - p + p - 1) / p + 1 := by
        rcases le_or_lt m p with hmp | hmp
        · have h1 : m - p = 0 := by omega
          rw [h1]
          have h2 : (0 + p - 1) / p = 0 := Nat.div_eq_of_lt (by omega)
          rw [h2]
          have h3 : m + p - 1 = (m - 1) + 1 * p := by ring_nf; omega
          rw [h3, Nat.add_mul_div_right _ _ hp, Nat.div_eq_of_lt (by omega)]
        · have h1 : m + p - 1 = (m - 1) + p := by omega
          have h2 : m - p + p - 1 = m - 1 := by omega
          rw [h1, h2, Nat.add_div_right _ hp]
      rw [hdiv]
      congr 1 <;> omega
    · rw [dif_neg h]
      have hm0 : m = 0 := by omega
      subst hm0
      have h2 : (0 + p - 1) / p = 0 := Nat.div_eq_of_lt (by omega)
      rw [h2]
      simp

/-- C1: for every status sequence that never yields a terminal state, with
pollInterval > 0 and a wall-clock budget (max_wait_minutes * 60 seconds)
equal to 3 times pollInterval, run_query fails with QueryTimeout after
performing exactly 3 status checks (neither 2 nor 4). -/
theorem C1_timeout_after_exactly_three_checks (statuses : Nat → String)
    (m p : Nat) (hp : 0 < p)
    (hs : ∀ i, isTerminalState (statuses i) = false)
    (hw : m * 60 = 3 * p) :
    run_query statuses m p hp = .timedOut 3 3 := by
  unfold run_query
  rw [pollLoop_nonTerminal statuses (m * 60) p hp hs (m * 60) 0 0 0 rfl]
  have hdiv : (m * 60 + p - 1) / p = 3 := by
    rw [hw]
    have h1 : 3 * p + p - 1 = (3 * p - 1) + 1 * p := by omega
    rw [h1, Nat.add_mul_div_right _ _ hp]
    have h2 : (3 * p - 1) / p = 2 := Nat.div_eq_of_lt_le (by omega) (by omega)
    omega
  rw [hdiv]

/-- Concrete instance of C1: a perpetually pending execution with a
1-minute budget and a 20-second interval times out after 3 checks. -/
theorem C1_timeout_after_exactly_three_checks_witness :
    (0 : Nat) < 20 ∧
    (∀ i : Nat, isTerminalState (pendingStatuses i) = false) ∧
    (1 : Nat) * 60 = 3 * 20 ∧
    run_query pendingStatuses 1 20 (by decide) = .timedOut 3 3 :=
  ⟨by decide, fun _ => rfl, by decide,
    C1_timeout_after_exactly_three_checks pendingStatuses
      1 20 (by decide) (fun _ => rfl) (by decide)⟩

/-- C4: if the first status check reports FAILED (or CANCELLED), run_query
fails with QueryFailed carrying that state, after exactly one status check
and without performing any sleep.  A positive wall-clock budget is assumed
so that a first check happens at all. -/
theorem C4_failed_first_check_no_sleep (statuses : Nat → String)
    (m p : Nat) (hp : 0 < p) (hm : 0 < m)
    (hf : statuses 0 = "QUERY_STATE_FAILED" ∨
      statuses 0 = "QUERY_STATE_CANCELLED") :
    run_query statuses m p hp = .queryFailed (statuses 0) 1 0 := by
  unfold run_query
  rw [pollLoop]
  have hne : ¬ statuses 0 = "QUERY_STATE_COMPLETED" := by
    rcases hf with h | h <;> rw [h] <;> decide
  rw [dif_pos (show (0 : Nat) < m * 60 by omega)]
  simp only [if_neg hne, if_pos hf]

/-- Concrete instance of C4: state FAILED on the first check with the
source defaults (30 minutes, 5 seconds). -/
theorem C4_failed_first_check_no_sleep_witness :
    (0 : Nat) < 5 ∧ (0 : Nat) < 30 ∧
    (failedStatuses 0 = "QUERY_STATE_FAILED" ∨
      failedStatuses 0 = "QUERY_STATE_CANCELLED") ∧
    run_query failedStatuses 30 5 (by decide) =
      .queryFailed "QUERY_STATE_FAILED" 1 0 :=
  ⟨by decide, by decide, Or.inl rfl,
    C4_failed_first_check_no_sleep failedStatuses 30 5
      (by decide) (by decide) (Or.inl rfl)⟩

/-- C8 counterexample: with a zero wall-clock budget (max_wait_minutes = 0,
so maxWait = 0 < pollInterval = 5) and a non-terminal first state, the run
performs zero status checks, not the single one the claim asserts. -/
theorem C8_counterexample_zero_budget :
    (0 : Nat) * 60 < 5 ∧
    isTerminalState (pendingStatuses 0) = false ∧
    run_query pendingStatuses 0 5 (by decide) = .timedOut 0 0 ∧
    (run_query pendingStatuses 0 5 (by decide)).checks ≠ 1 := by
  have hrun : run_query pendingStatuses 0 5 (by decide) = .timedOut 0 0 := by
    unfold run_query
    rw [pollLoop, dif_neg (by omega)]
  exact ⟨by decide, rfl, hrun, by rw [hrun]; decide⟩

/-- C8 amended: for pollInterval > 0, a positive wall-clock budget smaller
than one pollInterval yields exactly one status check (a zero budget yields
none): if that single check is non-terminal, the run fails with
QueryTimeout without performing a second check. -/
theorem C8_amended_single_check (statuses : Nat → String) (m p : Nat)
    (hp : 0 < p) (hm : 0 < m) (hlt : m * 60 < p)
    (hnt : isTerminalState (statuses 0) = false) :
    run_query statuses m p hp = .timedOut 1 1 := by
  unfold run_query
  rw [pollLoop]
  simp only [isTerminalState, Bool.or_eq_false_iff,
    decide_eq_false_iff_not] at hnt
  rw [dif_pos (show (0 : Nat) < m * 60 by omega)]
  simp only [if_neg hnt.1.1, if_neg (show ¬ (statuses 0 = "QUERY_STATE_FAILED" ∨
    statuses 0 = "QUERY_STATE_CANCELLED") by
      rintro (h | h)
      · exact hnt.1.2 h
      · exact hnt.2 h)]
  rw [pollLoop, dif_neg (by omega)]

/-- Concrete instance of the amended C8: a 1-minute budget with a
100-second interval performs exactly one check, then times out. -/
theorem C8_amended_single_check_witness :
    (0 : Nat) < 100 ∧ (0 : Nat) < 1 ∧ (1 : Nat) * 60 < 100 ∧
    isTerminalState (pendingStatuses 0) = false ∧
    run_query pendingStatuses 1 100 (by decide) = .timedOut 1 1 :=
  ⟨by decide, by decide, by decide, rfl,
    C8_amended_single_check pendingStatuses 1 100
      (by decide) (by decide) (by decide) rfl⟩

/-! ### Round trip of the CSV dialect -/

theorem parseQuoted_cons_ne (c : Char) (cs : CField) (hc : ¬ c = '"') :
    parseQuoted (c :: cs) = (c :: (parseQuoted cs).1, (parseQuoted cs).2) := by
  rw [parseQuoted.eq_def]
  simp [hc]

theorem parseQuoted_qq (cs2 : CField) :
    parseQuoted ('"' :: '"' :: cs2) =
      ('"' :: (parseQuoted cs2).1, (parseQuoted cs2).2) := by
  rw [parseQuoted.eq_def]
  simp

theorem parseQuoted_qclose (c2 : Char) (cs2 : CField) (h : ¬ c2 = '"') :
    parseQuoted ('"' :: c2 :: cs2) = ([], c2 :: cs2) := by
  rw [parseQuoted.eq_def]
  simp [h]

theorem parseUnquoted_cons (c : Char) (cs : CField) :
    parseUnquoted (c :: cs) =
      if csvStopper c then ([], c :: cs)
      else (c :: (parseUnquoted cs).1, (parseUnquoted cs).2) := by
  rw [parseUnquoted.eq_def]

theorem parseQuoted_esc (f : CField) (d : Char) (hd : ¬ d = '"')
    (rest : CField) :
    parseQuoted (escQuotes f ++ '"' :: d :: rest) = (f, d :: rest) := by
  induction f with
  | nil => simp [escQuotes, parseQuoted_qclose _ _ hd]
  | cons c cs ih =>
    by_cases hc : c = '"'
    · subst hc
      simp [escQuotes, parseQuoted_qq, ih]
    · simp only [escQuotes, if_neg hc, List.cons_append,
        parseQuoted_cons_ne c _ hc, ih]

theorem parseUnquoted_safe (f : CField)
    (hf : ∀ c ∈ f, csvStopper c = false) (d : Char)
    (hd : csvStopper d = true) (rest : CField) :
    parseUnquoted (f ++ d :: rest) = (f, d :: rest) := by
  induction f with
  | nil => simp [parseUnquoted_cons, hd]
  | cons c cs ih =>
    have hc := hf c (by simp)
    rw [List.cons_append, parseUnquoted_cons, if_neg (by simp [hc]),
      ih (fun x hx => hf x (by simp [hx]))]

theorem needsQuote_false_spec (f : CField) (hq : needsQuote f = false)
    (c : Char) (hc : c ∈ f) : csvStopper c = false ∧ ¬ c = '"' := by
  rw [needsQuote, List.any_eq_false] at hq
  have h2 := hq c hc
  simp only [Bool.or_eq_true, decide_eq_true_eq, not_or] at h2
  exact ⟨by simpa using h2.1, h2.2⟩

theorem parseField_write (f : CField) (d : Char) (hd : d = ',' ∨ d = '\r')
    (rest : CField) :
    parseField (writeField f ++ d :: rest) = (f, d :: rest) := by
  have hdq : ¬ d = '"' := by rcases hd with h | h <;> subst h <;> decide
  have hds : csvStopper d = true := by
    rcases hd with h | h <;> subst h <;> decide
  by_cases hq : needsQuote f
  · rw [writeField, if_pos hq]
    simp only [List.cons_append, parseField, if_pos rfl, List.append_assoc,
      List.singleton_append]
    exact parseQuoted_esc f d hdq rest
  · rw [writeField, if_neg hq]
    have hq2 := needsQuote_false_spec f (by simpa using hq)
    cases f with
    | nil =>
      simp only [List.nil_append, parseField, if_neg hdq]
      simp [parseUnquoted_cons, hds]
    | cons c cs =>
      have hcq : ¬ c = '"' := (hq2 c (by simp)).2
      simp only [List.cons_append, parseField, if_neg hcq]
      exact parseUnquoted_safe (c :: cs) (fun x hx => (hq2 x hx).1) d hds rest

theorem parseRecFieldsGo_write : ∀ (fs : List CField) (fuel : Nat)
    (rest : CField), fs ≠ [] → fs.length ≤ fuel →
    parseRecFieldsGo fuel (writeRecordBody fs ++ '\r' :: '\n' :: rest) =
      (fs, rest) := by
  intro fs
  induction fs with
  | nil => intro _ _ h _; exact absurd rfl h
  | cons f fs ih =>
    intro fuel rest _ hfuel
    obtain ⟨k, rfl⟩ : ∃ k, fuel = k + 1 := by
      cases fuel with
      | zero => simp at hfuel
      | succ k => exact ⟨k, rfl⟩
    cases fs with
    | nil =>
      rw [parseRecFieldsGo.eq_def]
      simp only [writeRecordBody,
        parseField_write f '\r' (Or.inr rfl) ('\n' :: rest)]
    | cons f2 fs2 =>
      rw [parseRecFieldsGo.eq_def]
      rw [writeRecordBody.eq_def]
      simp only [List.append_assoc, List.cons_append,
        parseField_write f ',' (Or.inl rfl) _]
      rw [ih k rest (by simp) (by simp at hfuel ⊢; omega)]

theorem parseRecord_of_head_ne (c : Char) (cs : CField) (hc : ¬ c = '\r') :
    parseRecord (c :: cs) = parseRecordFields (c :: cs) := by
  cases cs with
  | nil => rfl
  | cons c2 cs2 =>
    rw [parseRecord.eq_def]
    simp [hc]

theorem writeRecordBody_length : ∀ fs : List CField,
    fs.length ≤ (writeRecordBody fs).length + 1 := by
  intro fs
  induction fs with
  | nil => simp [writeRecordBody]
  | cons f fs ih =>
    cases fs with
    | nil => simp [writeRecordBody]
    | cons f2 fs2 =>
      rw [writeRecordBody.eq_def]
      simp only [List.length_cons, List.length_append] at ih ⊢
      omega

theorem parseRecordFields_write (fs : List CField) (hne : fs ≠ [])
    (rest : CField) :
    parseRecordFields (writeRecordBody fs ++ '\r' :: '\n' :: rest) =
      (fs, rest) := by
  apply parseRecFieldsGo_write fs _ rest hne
  have h := writeRecordBody_length fs
  simp only [List.length_append, List.length_cons]
  omega

theorem writeRecordBody_cons (f : CField) (fs : List CField)
    (hne : ¬ f :: fs = [[]]) :
    ∃ c cs2, writeRecordBody (f :: fs) = c :: cs2 ∧ ¬ c = '\r' := by
  cases f with
  | nil =>
    cases fs with
    | nil => exact absurd rfl hne
    | cons f2 fs2 =>
      refine ⟨',', writeRecordBody (f2 :: fs2), ?_, by decide⟩
      rw [writeRecordBody.eq_def]
      simp [writeField, needsQuote]
  | cons c cs =>
    by_cases hq : needsQuote (c :: cs)
    · have hw : writeField (c :: cs) = '"' :: (escQuotes (c :: cs) ++ ['"']) := by
        rw [writeField, if_pos hq]
      cases fs with
      | nil => exact ⟨'"', escQuotes (c :: cs) ++ ['"'],
          by rw [writeRecordBody, hw], by decide⟩
      | cons f2 fs2 =>
        refine ⟨'"', (escQuotes (c :: cs) ++ ['"']) ++
          ',' :: writeRecordBody (f2 :: fs2), ?_, by decide⟩
        rw [writeRecordBody.eq_def]
        simp [hw]
    · have hw : writeField (c :: cs) = c :: cs := by
        rw [writeField, if_neg hq]
      have hc : ¬ c = '\r' := by
        have h2 := (needsQuote_false_spec (c :: cs) (by simpa using hq) c
          (by simp)).1
        intro h
        subst h
        simp [csvStopper] at h2
      cases fs with
      | nil => exact ⟨c, cs, by rw [writeRecordBody, hw], hc⟩
      | cons f2 fs2 =>
        refine ⟨c, cs ++ ',' :: writeRecordBody (f2 :: fs2), ?_, hc⟩
        rw [writeRecordBody.eq_def]
        simp [hw]

theorem parseField_quote (cs : CField) : parseField ('"' :: cs) = parseQuoted cs := by
  rw [parseField.eq_def]
  simp

theorem parseRecord_write (fs : List CField) (rest : CField) :
    parseRecord (writeRecord fs ++ rest) = (fs, rest) := by
  by_cases h1 : fs = [[]]
  · subst h1
    rw [writeRecord, if_pos rfl]
    rw [show (['"', '"', '\r', '\n'] : CField) ++ rest =
      '"' :: '"' :: '\r' :: '\n' :: rest from rfl]
    rw [parseRecord_of_head_ne _ _ (by decide)]
    unfold parseRecordFields
    rw [parseRecFieldsGo.eq_def]
    simp only [parseField_quote, parseQuoted_qclose _ _ (by decide : ¬ '\r' = '"')]
  · cases fs with
    | nil =>
      rw [writeRecord, if_neg h1]
      rw [show writeRecordBody [] ++ (['\r', '\n'] : CField) ++ rest =
        '\r' :: '\n' :: rest from rfl]
      rw [parseRecord.eq_def]
      simp
    | cons f fs2 =>
      obtain ⟨c, cs2, heq, hc⟩ := writeRecordBody_cons f fs2 h1
      rw [writeRecord, if_neg h1, List.append_assoc]
      rw [show (['\r', '\n'] : CField) ++ rest = '\r' :: '\n' :: rest from rfl]
      rw [heq, List.cons_append, parseRecord_of_head_ne _ _ hc,
        ← List.cons_append, ← heq]
      exact parseRecordFields_write (f :: fs2) (by simp) rest

theorem writeRecord_length (fs : List CField) :
    2 ≤ (writeRecord fs).length := by
  rw [writeRecord]
  split
  · simp
  · simp [List.length_append]

theorem parseTableGo_write : ∀ (t : List (List CField)) (fuel : Nat),
    (csvWriteTable t).length ≤ fuel →
    parseTableGo fuel (csvWriteTable t) = t := by
  intro t
  induction t with
  | nil =>
    intro fuel _
    rw [show csvWriteTable [] = [] from rfl]
    cases fuel <;> rfl
  | cons fs t' ih =>
    intro fuel hfuel
    have hW : csvWriteTable (fs :: t') = writeRecord fs ++ csvWriteTable t' := by
      simp [csvWriteTable]
    have hlen := writeRecord_length fs
    rw [hW] at hfuel ⊢
    simp only [List.length_append] at hfuel
    obtain ⟨k, rfl⟩ : ∃ k, fuel = k + 1 := by
      cases fuel with
      | zero => omega
      | succ k => exact ⟨k, rfl⟩
    obtain ⟨c, ws, hwr⟩ : ∃ c ws, writeRecord fs = c :: ws := by
      cases hx : writeRecord fs with
      | nil => rw [hx] at hlen; simp at hlen
      | cons c ws => exact ⟨c, ws, rfl⟩
    rw [hwr, List.cons_append, parseTableGo.eq_def]
    simp only []
    rw [← List.cons_append, ← hwr, parseRecord_write]
    simp only []
    rw [ih k (by rw [hwr] at hfuel; simp at hfuel; omega)]

theorem csv_roundtrip (t : List (List CField)) :
    csvParseTable (csvWriteTable t) = t :=
  parseTableGo_write t _ le_rfl

/-- A string is its character list. -/
theorem string_mk_data (s : String) : String.mk s.data = s := by
  cases s
  rfl

/-- Mapping to characters and back is the identity on string lists. -/
theorem map_data_mk (r : List String) :
    (r.map String.data).map String.mk = r := by
  induction r with
  | nil => rfl
  | cons s r ih => simp [ih, string_mk_data]

/-- Round trip of the string-level CSV table encoding: re-parsing a written
table recovers exactly the original records of fields. -/
theorem csv_roundtrip_str (t : List (List String)) :
    csvParseTableStr (csvWriteTableStr t) = t := by
  unfold csvParseTableStr csvWriteTableStr
  rw [show (String.mk (csvWriteTable (t.map fun r => r.map String.data))).data
    = csvWriteTable (t.map fun r => r.map String.data) from rfl]
  rw [csv_roundtrip]
  induction t with
  | nil => rfl
  | cons r t ih => simp only [List.map_cons, map_data_mk, ih]

/-- Every row projecting cleanly makes `writerows` succeed with the
projections, in order. -/
theorem dictWriterRows_ok (fieldnames : List String) (rows : List Row)
    (h : ∀ r ∈ rows, ∀ kv ∈ r, kv.1 ∈ fieldnames) :
    dictWriterRows fieldnames rows =
      .ok (rows.map (fun r => fieldnames.map
        (fun k => (List.lookup k r).getD ""))) := by
  induction rows with
  | nil => rfl
  | cons r rs ih =>
    rw [dictWriterRows, dictWriterRow, if_pos (h r (by simp)),
      ih (fun x hx kv hkv => h x (by simp [hx]) kv hkv)]
    rfl

/-- A row with a key outside the fieldnames makes `writerows` raise. -/
theorem dictWriterRows_error (fieldnames : List String) (rows : List Row)
    (h : ∃ r ∈ rows, ∃ kv ∈ r, kv.1 ∉ fieldnames) :
    dictWriterRows fieldnames rows =
      .error "dict contains fields not in fieldnames" := by
  induction rows with
  | nil => simp at h
  | cons r rs ih =>
    by_cases hr : ∀ kv ∈ r, kv.1 ∈ fieldnames
    · have hrs : ∃ r ∈ rs, ∃ kv ∈ r, kv.1 ∉ fieldnames := by
        obtain ⟨r2, hr2, kv, hkv, hout⟩ := h
        rcases List.mem_cons.mp hr2 with h1 | h1
        · subst h1
          exact absurd (hr kv hkv) hout
        · exact ⟨r2, h1, kv, hkv, hout⟩
      rw [dictWriterRows, dictWriterRow, if_pos hr, ih hrs]
    · rw [dictWriterRows, dictWriterRow, if_neg hr]

/-! ## Claim theorems over the handlers -/

/-- C2: for every user-supplied contract address string whose stripped
length is outside the interval [32,44], both the top-traders entry step
(handle_ca_top) and the trades entry step (ask_start) terminate the flow
immediately with the validation-error notice and never invoke run_query
(hence no query submission, status check, or result fetch happens). -/
theorem C2_invalid_address_never_calls_query (text tokenName : String)
    (outcome : Except String (List Row)) (ud : UserData)
    (h : (pyStrip text).length < 32 ∨ 44 < (pyStrip text).length) :
    (handle_ca_top text tokenName outcome ud).ret = .ended ∧
    (handle_ca_top text tokenName outcome ud).queryCalled = false ∧
    (handle_ca_top text tokenName outcome ud).replies =
      ["⚠️ Invalid Solana contract address format."] ∧
    (handle_ca_top text tokenName outcome ud).document = none ∧
    (ask_start text tokenName ud).ret = .ended ∧
    (ask_start text tokenName ud).queryCalled = false ∧
    (ask_start text tokenName ud).replies =
      ["⚠️ Invalid Solana contract address format."] := by
  have hcond : ¬ (32 ≤ (pyStrip text).length ∧ (pyStrip text).length ≤ 44) := by
    omega
  simp only [handle_ca_top, ask_start, if_pos hcond]
  simp

/-- Concrete instance of C2: a short address is rejected by both entry
steps without any Dune call. -/
theorem C2_invalid_address_never_calls_query_witness :
    ((pyStrip "abc").length < 32 ∨ 44 < (pyStrip "abc").length) ∧
    ((handle_ca_top "abc" "T" (.ok []) default).ret = .ended ∧
     (handle_ca_top "abc" "T" (.ok []) default).queryCalled = false ∧
     (handle_ca_top "abc" "T" (.ok []) default).replies =
       ["⚠️ Invalid Solana contract address format."] ∧
     (handle_ca_top "abc" "T" (.ok []) default).document = none ∧
     (ask_start "abc" "T" default).ret = .ended ∧
     (ask_start "abc" "T" default).queryCalled = false ∧
     (ask_start "abc" "T" default).replies =
       ["⚠️ Invalid Solana contract address format."]) :=
  ⟨Or.inl (by decide),
    C2_invalid_address_never_calls_query "abc" "T" (.ok []) default
      (Or.inl (by decide))⟩

/-- C3 counterexample: the string " 2025-01-01 00:00:00" (leading space)
does not match the datetime pattern, yet ask_end strips it first, accepts
it, stores the stripped value and advances to the ASK_END stage. -/
theorem C3_counterexample_leading_space :
    DATETIME_PATTERN_match " 2025-01-01 00:00:00" = false ∧
    (ask_end " 2025-01-01 00:00:00" default).ret = .toState .ASK_END ∧
    (ask_end " 2025-01-01 00:00:00" default).data.start_time =
      some "2025-01-01 00:00:00" :=
  ⟨by decide, rfl, rfl⟩

/-- C3 amended: for every timestamp string whose STRIPPED form does not
match the pattern, the state awaiting it re-prompts and remains in the
same stage (ask_end stays in ASK_START, fetch_trades stays in ASK_END);
the flow does not advance. -/
theorem C3_amended_invalid_timestamp_reprompts (s : String) (ud : UserData)
    (outcome : Except String (List Row))
    (h : DATETIME_PATTERN_match (pyStrip s) = false) :
    (ask_end s ud).ret = .toState .ASK_START ∧
    (ask_end s ud).replies =
      ["⚠️ Invalid format! Try again: YYYY-MM-DD HH:MM:SS"] ∧
    (fetch_trades s ud outcome).map StepOut.ret =
      some (.toState .ASK_END) ∧
    (fetch_trades s ud outcome).map StepOut.replies =
      some ["⚠️ Invalid format! Try again: YYYY-MM-DD HH:MM:SS"] := by
  have hcond : ¬ DATETIME_PATTERN_match (pyStrip s) = true := by
    simp [h]
  simp only [ask_end, fetch_trades, if_pos hcond]
  simp

/-- Concrete instance of the amended C3: a non-timestamp input re-prompts
in both waiting states. -/
theorem C3_amended_invalid_timestamp_reprompts_witness :
    DATETIME_PATTERN_match (pyStrip "not a date") = false ∧
    ((ask_end "not a date" default).ret = .toState .ASK_START ∧
     (ask_end "not a date" default).replies =
       ["⚠️ Invalid format! Try again: YYYY-MM-DD HH:MM:SS"] ∧
     (fetch_trades "not a date" default (.ok [])).map StepOut.ret =
       some (.toState .ASK_END) ∧
     (fetch_trades "not a date" default (.ok [])).map StepOut.replies =
       some ["⚠️ Invalid format! Try again: YYYY-MM-DD HH:MM:SS"]) :=
  ⟨by decide,
    C3_amended_invalid_timestamp_reprompts "not a date" default (.ok [])
      (by decide)⟩

/-- C10: on every timestamp submission that the code rejects (its stripped
form fails the pattern), the per-user session context is unchanged in both
waiting states: the stored contract address and any stored start time keep
their prior values and the rejected string is not stored. -/
theorem C10_invalid_timestamp_preserves_context (s : String)
    (ud : UserData) (outcome : Except String (List Row))
    (h : DATETIME_PATTERN_match (pyStrip s) = false) :
    (ask_end s ud).data = ud ∧
    (fetch_trades s ud outcome).map StepOut.data = some ud := by
  have hcond : ¬ DATETIME_PATTERN_match (pyStrip s) = true := by
    simp [h]
  simp only [ask_end, fetch_trades, if_pos hcond]
  simp

/-- Concrete instance of C10: a rejected input leaves a populated session
context exactly as it was. -/
theorem C10_invalid_timestamp_preserves_context_witness :
    DATETIME_PATTERN_match (pyStrip "12:34") = false ∧
    ((ask_end "12:34"
        ⟨some "So1CA", some "2025-09-01 00:00:00", none⟩).data =
      ⟨some "So1CA", some "2025-09-01 00:00:00", none⟩ ∧
     (fetch_trades "12:34"
        ⟨some "So1CA", some "2025-09-01 00:00:00", none⟩ (.ok [])).map
          StepOut.data =
      some ⟨some "So1CA", some "2025-09-01 00:00:00", none⟩) :=
  ⟨by decide,
    C10_invalid_timestamp_preserves_context "12:34"
      ⟨some "So1CA", some "2025-09-01 00:00:00", none⟩ (.ok []) (by decide)⟩

/-- C5: in both flows, when the fetched row sequence is empty the user
sees exactly the "no results" notice and no file export is attempted (the
trades flow attaches no document; the top-traders flow never attaches
one). -/
theorem C5_empty_rows_no_results_no_export (text1 tokenName text2 ca st :
    String) (ud : UserData)
    (h1 : 32 ≤ (pyStrip text1).length ∧ (pyStrip text1).length ≤ 44)
    (h2 : DATETIME_PATTERN_match (pyStrip text2) = true)
    (hca : ud.contract_address = some ca)
    (hst : ud.start_time = some st) :
    (handle_ca_top text1 tokenName (.ok []) ud).edits =
      ["⚠️ No results found."] ∧
    (handle_ca_top text1 tokenName (.ok []) ud).document = none ∧
    (handle_ca_top text1 tokenName (.ok []) ud).ret = .ended ∧
    (fetch_trades text2 ud (.ok [])).map StepOut.edits =
      some ["⚠️ No results found."] ∧
    (fetch_trades text2 ud (.ok [])).map StepOut.document = some none ∧
    (fetch_trades text2 ud (.ok [])).map StepOut.ret = some .ended := by
  have hc1 : ¬ ¬ (32 ≤ (pyStrip text1).length ∧
      (pyStrip text1).length ≤ 44) := not_not_intro h1
  have hc2 : ¬ ¬ DATETIME_PATTERN_match (pyStrip text2) = true := by
    simp [h2]
  simp only [handle_ca_top, fetch_trades, if_neg hc1, if_neg hc2, hca, hst]
  simp

/-- Concrete instance of C5: an empty result set in both flows. -/
theorem C5_empty_rows_no_results_no_export_witness :
    (32 ≤ (pyStrip "ABCDEFGHIJKLMNOPQRSTUVWXYZ123456").length ∧
      (pyStrip "ABCDEFGHIJKLMNOPQRSTUVWXYZ123456").length ≤ 44) ∧
    DATETIME_PATTERN_match (pyStrip "2025-01-01 00:00:00") = true ∧
    ((handle_ca_top "ABCDEFGHIJKLMNOPQRSTUVWXYZ123456" "T" (.ok [])
        ⟨some "C", some "S", none⟩).edits = ["⚠️ No results found."] ∧
     (handle_ca_top "ABCDEFGHIJKLMNOPQRSTUVWXYZ123456" "T" (.ok [])
        ⟨some "C", some "S", none⟩).document = none ∧
     (handle_ca_top "ABCDEFGHIJKLMNOPQRSTUVWXYZ123456" "T" (.ok [])
        ⟨some "C", some "S", none⟩).ret = .ended ∧
     (fetch_trades "2025-01-01 00:00:00" ⟨some "C", some "S", none⟩
        (.ok [])).map StepOut.edits = some ["⚠️ No results found."] ∧
     (fetch_trades "2025-01-01 00:00:00" ⟨some "C", some "S", none⟩
        (.ok [])).map StepOut.document = some none ∧
     (fetch_trades "2025-01-01 00:00:00" ⟨some "C", some "S", none⟩
        (.ok [])).map StepOut.ret = some .ended) :=
  ⟨by decide, by decide,
    C5_empty_rows_no_results_no_export "ABCDEFGHIJKLMNOPQRSTUVWXYZ123456"
      "T" "2025-01-01 00:00:00" "C" "S" ⟨some "C", some "S", none⟩
      (by decide) (by decide) rfl rfl⟩

/-- C7: for every non-empty row sequence in which every row has the same
column set as the first row, exporting to the CSV file and re-parsing it
yields the same column set (the header) and the same row count (records
beyond the header) as the original sequence. -/
theorem C7_export_reparse_roundtrip (rows : List Row) (hne : rows ≠ [])
    (hkeys : ∀ r ∈ rows,
      (rowKeys r).toFinset = (rowKeys rows.headI).toFinset) :
    ∃ content hdr body,
      csvExport rows = .ok content ∧
      csvParseTableStr content = hdr :: body ∧
      hdr.toFinset = (rowKeys rows.headI).toFinset ∧
      body.length = rows.length := by
  cases rows with
  | nil => exact absurd rfl hne
  | cons r0 rest =>
    have hsub : ∀ r ∈ r0 :: rest, ∀ kv ∈ r, kv.1 ∈ rowKeys r0 := by
      intro r hr kv hkv
      have h1 : kv.1 ∈ rowKeys r := List.mem_map_of_mem Prod.fst hkv
      have h2 := hkeys r hr
      rw [show (r0 :: rest).headI = r0 from rfl] at h2
      rw [← List.mem_toFinset, h2] at h1
      exact List.mem_toFinset.mp h1
    refine ⟨csvWriteTableStr (rowKeys r0 :: (r0 :: rest).map
        (fun r => (rowKeys r0).map (fun k => (List.lookup k r).getD ""))),
      rowKeys r0,
      (r0 :: rest).map (fun r => (rowKeys r0).map
        (fun k => (List.lookup k r).getD "")), ?_, ?_, ?_, ?_⟩
    · simp only [csvExport]
      rw [dictWriterRows_ok _ _ hsub]
    · exact csv_roundtrip_str _
    · rfl
    · simp

/-- Concrete instance of C7: two rows sharing the column set, with the
second row's keys in a different order. -/
theorem C7_export_reparse_roundtrip_witness :
    ([[("a", "1"), ("b", "2")], [("b", "3"), ("a", "4")]] : List Row) ≠
      [] ∧
    (∀ r ∈ ([[("a", "1"), ("b", "2")], [("b", "3"), ("a", "4")]] :
        List Row), (rowKeys r).toFinset =
      (rowKeys ([[("a", "1"), ("b", "2")], [("b", "3"), ("a", "4")]] :
        List Row).headI).toFinset) ∧
    (∃ content hdr body,
      csvExport [[("a", "1"), ("b", "2")], [("b", "3"), ("a", "4")]] =
        .ok content ∧
      csvParseTableStr content = hdr :: body ∧
      hdr.toFinset = (rowKeys ([[("a", "1"), ("b", "2")],
        [("b", "3"), ("a", "4")]] : List Row).headI).toFinset ∧
      body.length =
        ([[("a", "1"), ("b", "2")], [("b", "3"), ("a", "4")]] :
          List Row).length) :=
  ⟨by decide, by decide,
    C7_export_reparse_roundtrip
      [[("a", "1"), ("b", "2")], [("b", "3"), ("a", "4")]]
      (by decide) (by decide)⟩

/-- C9 counterexample: in [{a:1, b:2}, {a:3}] the second row's key set
differs from the first row's, yet the code emits a well-formed export that
silently renders the missing column as an empty value: the file parses as
a header plus one record per row, with the absent b shown as "". -/
theorem C9_counterexample_missing_key_silent_export :
    (rowKeys [("a", "3")]).toFinset ≠
      (rowKeys [("a", "1"), ("b", "2")]).toFinset ∧
    csvExport [[("a", "1"), ("b", "2")], [("a", "3")]] =
      .ok "a,b\r\n1,2\r\n3,\r\n" ∧
    csvParseTableStr "a,b\r\n1,2\r\n3,\r\n" =
      [["a", "b"], ["1", "2"], ["3", ""]] :=
  ⟨by decide, rfl, rfl⟩

/-- C9 amended: the export is a guarded error exactly for rows carrying a
key OUTSIDE the first row's keys (DictWriter's ValueError: no file is
produced); a row merely MISSING some of the first row's keys is silently
exported with the empty string in the missing columns. -/
theorem C9_amended_extra_key_guarded_missing_key_silent (r0 : Row)
    (rest : List Row) :
    ((∃ r ∈ r0 :: rest, ∃ kv ∈ r, kv.1 ∉ rowKeys r0) →
      csvExport (r0 :: rest) =
        .error "dict contains fields not in fieldnames") ∧
    ((∀ r ∈ r0 :: rest, ∀ kv ∈ r, kv.1 ∈ rowKeys r0) →
      csvExport (r0 :: rest) =
        .ok (csvWriteTableStr (rowKeys r0 :: (r0 :: rest).map
          (fun r => (rowKeys r0).map
            (fun k => (List.lookup k r).getD ""))))) := by
  constructor
  · intro h
    simp only [csvExport]
    rw [dictWriterRows_error _ _ h]
  · intro h
    simp only [csvExport]
    rw [dictWriterRows_ok _ _ h]

/-- Concrete instance of the amended C9: an extra key raises and produces
no file; a missing key silently exports. -/
theorem C9_amended_extra_key_guarded_missing_key_silent_witness :
    csvExport [[("a", "1")], [("a", "2"), ("b", "3")]] =
      .error "dict contains fields not in fieldnames" ∧
    csvExport [[("a", "1"), ("b", "2")], [("a", "3")]] =
      .ok (csvWriteTableStr (rowKeys [("a", "1"), ("b", "2")] ::
        ([[("a", "1"), ("b", "2")], [("a", "3")]] : List Row).map
          (fun r => (rowKeys [("a", "1"), ("b", "2")]).map
            (fun k => (List.lookup k r).getD "")))) :=
  ⟨(C9_amended_extra_key_guarded_missing_key_silent [("a", "1")]
      [[("a", "2"), ("b", "3")]]).1
      ⟨[("a", "2"), ("b", "3")], by decide, ("b", "3"), by decide,
        by decide⟩,
    (C9_amended_extra_key_guarded_missing_key_silent
      [("a", "1"), ("b", "2")] [[("a", "3")]]).2 (by decide)⟩

/-- UTF-8 length distributes over string append. -/
theorem utf8Len_append (s t : String) :
    utf8Len (s ++ t) = utf8Len s + utf8Len t := by
  rcases s with ⟨a⟩
  rcases t with ⟨b⟩
  simp [utf8Len]

/-- UTF-8 length of a character repeated n times. -/
theorem utf8Len_mk_replicate (n : Nat) (c : Char) :
    utf8Len (String.mk (List.replicate n c)) = n * charUtf8Size c := by
  simp [utf8Len, List.map_replicate, List.sum_replicate, smul_eq_mul]

/-- Character length of a character repeated n times. -/
theorem length_mk_replicate (n : Nat) (c : Char) :
    (String.mk (List.replicate n c)).length = n := by
  simp [String.length]

/-- The rendered trades message of the counterexample row set.  Only the
trade_date column is present, so the other columns show as None. -/
theorem c6Rows_msg_eq : renderTradesMsg c6Rows =
    "📊 Query Results:\n\n" ++ "⏰ " ++
      String.mk (List.replicate 1400 '😀') ++ "\n👤 " ++ "None" ++
      "\n💠 " ++ "None" ++ " — $" ++ "None" ++ "\n\n" := by
  simp [renderTradesMsg, c6Rows, pyGet, List.lookup]

/-- Character count of the counterexample message: 1400 payload characters
plus 44 template characters. -/
theorem c6Rows_msg_length : (renderTradesMsg c6Rows).length = 1444 := by
  rw [c6Rows_msg_eq]
  simp only [String.length_append, length_mk_replicate]
  decide

/-- The rendered trades message of the witness row set. -/
theorem c6BigRows_msg_eq : renderTradesMsg c6BigRows =
    "📊 Query Results:\n\n" ++ "⏰ " ++
      String.mk (List.replicate 5000 'a') ++ "\n👤 " ++ "None" ++
      "\n💠 " ++ "None" ++ " — $" ++ "None" ++ "\n\n" := by
  simp [renderTradesMsg, c6BigRows, pyGet, List.lookup]

/-- Character count of the witness message. -/
theorem c6BigRows_msg_length :
    (renderTradesMsg c6BigRows).length = 5044 := by
  rw [c6BigRows_msg_eq]
  simp only [String.length_append, length_mk_replicate]
  decide

/-- The full happy path of fetch_trades on a non-empty result set whose
rows only use columns of the first row: the status message is sent, the
inline edit is the message or the "too large" notice by character count,
and the complete CSV is attached. -/
theorem fetch_trades_ok_nonempty (text ca st : String) (ud : UserData)
    (r0 : Row) (rest : List Row)
    (hval : DATETIME_PATTERN_match (pyStrip text) = true)
    (hca : ud.contract_address = some ca)
    (hst : ud.start_time = some st)
    (hkeys : ∀ r ∈ r0 :: rest, ∀ kv ∈ r, kv.1 ∈ rowKeys r0) :
    fetch_trades text ud (.ok (r0 :: rest)) = some
      { ret := .ended,
        data := { ud with end_time := some (pyStrip text) },
        queryCalled := true,
        replies := ["📡 Running query...\n\nCA: `" ++ ca ++ "`\nFrom: " ++
          st ++ "\nTo: " ++ pyStrip text],
        edits := [if (renderTradesMsg (r0 :: rest)).length ≤ 4096
          then renderTradesMsg (r0 :: rest)
          else "📂 Results too large, sending CSV..."],
        document := some ("trades_" ++ ca ++ ".csv",
          csvWriteTableStr (rowKeys r0 :: (r0 :: rest).map
            (fun r => (rowKeys r0).map
              (fun k => (List.lookup k r).getD "")))) } := by
  have hc2 : ¬ ¬ DATETIME_PATTERN_match (pyStrip text) = true := by
    simp [hval]
  have hexp : csvExport (r0 :: rest) =
      .ok (csvWriteTableStr (rowKeys r0 :: (r0 :: rest).map
        (fun r => (rowKeys r0).map
          (fun k => (List.lookup k r).getD "")))) := by
    simp only [csvExport]
    rw [dictWriterRows_ok _ _ hkeys]
  simp only [fetch_trades, if_neg hc2, hca, hst,
    if_neg (show ¬ (r0 :: rest) = [] by simp), hexp]

/-- C6 counterexample: the rendered inline text of this result set exceeds
the 4096-byte budget, yet the code (which compares `len(message)`, a
character count) sends the full text inline rather than substituting the
"results too large" notice. -/
theorem C6_counterexample_byte_budget_not_used :
    4096 < utf8Len (renderTradesMsg c6Rows) ∧
    (renderTradesMsg c6Rows).length ≤ 4096 ∧
    (fetch_trades "2025-01-01 00:00:00"
        ⟨some "CA", some "2025-09-01 00:00:00", none⟩ (.ok c6Rows)).map
      StepOut.edits = some [renderTradesMsg c6Rows] ∧
    renderTradesMsg c6Rows ≠ "📂 Results too large, sending CSV..." := by
  have hutf : 4096 < utf8Len (renderTradesMsg c6Rows) := by
    rw [c6Rows_msg_eq]
    simp only [utf8Len_append, utf8Len_mk_replicate]
    decide
  have hch : (renderTradesMsg c6Rows).length ≤ 4096 := by
    rw [c6Rows_msg_length]
    decide
  refine ⟨hutf, hch, ?_, ?_⟩
  · have hc : c6Rows =
        [("trade_date", String.mk (List.replicate 1400 '😀'))] :: [] := rfl
    rw [hc, fetch_trades_ok_nonempty "2025-01-01 00:00:00" "CA"
      "2025-09-01 00:00:00" _ _ _ (by decide) rfl rfl (by decide)]
    rw [← hc, if_pos hch]
    rfl
  · intro h
    have h2 := congrArg String.length h
    rw [c6Rows_msg_length] at h2
    revert h2
    decide

/-- C6 amended: in the trades flow, for every non-empty row sequence
respecting the uniform-column invariant whose rendered inline text exceeds
4096 CHARACTERS (the code counts characters, not bytes), the inline text
is replaced by the "results too large" notice while the attached CSV still
contains every row of the sequence, unaffected by the threshold. -/
theorem C6_amended_oversized_text_notice_with_full_export
    (text ca st : String) (ud : UserData) (rows : List Row)
    (hval : DATETIME_PATTERN_match (pyStrip text) = true)
    (hca : ud.contract_address = some ca)
    (hst : ud.start_time = some st)
    (hne : rows ≠ [])
    (hkeys : ∀ r ∈ rows, ∀ kv ∈ r, kv.1 ∈ rowKeys rows.headI)
    (hbig : 4096 < (renderTradesMsg rows).length) :
    (fetch_trades text ud (.ok rows)).map StepOut.edits =
      some ["📂 Results too large, sending CSV..."] ∧
    ∃ content,
      (fetch_trades text ud (.ok rows)).map StepOut.document =
        some (some ("trades_" ++ ca ++ ".csv", content)) ∧
      csvParseTableStr content = rowKeys rows.headI :: rows.map
        (fun r => (rowKeys rows.headI).map
          (fun k => (List.lookup k r).getD "")) := by
  cases rows with
  | nil => exact absurd rfl hne
  | cons r0 rest =>
    have hkeys2 : ∀ r ∈ r0 :: rest, ∀ kv ∈ r, kv.1 ∈ rowKeys r0 := hkeys
    rw [fetch_trades_ok_nonempty text ca st ud r0 rest hval hca hst hkeys2]
    rw [if_neg (by omega)]
    exact ⟨rfl, _, rfl, csv_roundtrip_str _⟩

/-- Concrete instance of the amended C6: an oversized message yields the
notice and a complete export. -/
theorem C6_amended_oversized_text_notice_with_full_export_witness :
    DATETIME_PATTERN_match (pyStrip "2025-01-01 00:00:00") = true ∧
    c6BigRows ≠ [] ∧
    (∀ r ∈ c6BigRows, ∀ kv ∈ r, kv.1 ∈ rowKeys c6BigRows.headI) ∧
    4096 < (renderTradesMsg c6BigRows).length ∧
    ((fetch_trades "2025-01-01 00:00:00"
        ⟨some "CA", some "2025-09-01 00:00:00", none⟩ (.ok c6BigRows)).map
      StepOut.edits = some ["📂 Results too large, sending CSV..."] ∧
    ∃ content,
      (fetch_trades "2025-01-01 00:00:00"
          ⟨some "CA", some "2025-09-01 00:00:00", none⟩
          (.ok c6BigRows)).map StepOut.document =
        some (some ("trades_" ++ "CA" ++ ".csv", content)) ∧
      csvParseTableStr content = rowKeys c6BigRows.headI :: c6BigRows.map
        (fun r => (rowKeys c6BigRows.headI).map
          (fun k => (List.lookup k r).getD ""))) :=
  ⟨by decide, by decide, by decide,
    by rw [c6BigRows_msg_length]; decide,
    C6_amended_oversized_text_notice_with_full_export
      "2025-01-01 00:00:00" "CA" "2025-09-01 00:00:00"
      ⟨some "CA", some "2025-09-01 00:00:00", none⟩ c6BigRows
      (by decide) rfl rfl (by decide) (by decide)
      (by rw [c6BigRows_msg_length]; decide)⟩
